import Mathlib

/-!
Verification of the request-authorization contract of a REST façade over a
third-party authentication backend.

The embedded code is:
* `src/src/middleware/auth.middleware.js` — `requireAuth`, `requireRole`,
  `errorHandler`, `notFound`;
* the auth routes (`validate` middleware and the signup / signin /
  reset-password pipelines);
* `src/src/services/auth.service.js` — `AuthService.signUp`.

External collaborators (the identity provider SDK and the profile store) are
modelled as parameters, following the spec's capability view:
`verifyToken(token) -> Principal | Invalid | Unavailable` and
`getUserRole(userId) -> Role | NotFound`.  A transient provider/store failure
is the call throwing (rejecting), which lands in the JS `catch` block.
-/

namespace Hustlrs

/-! ### JavaScript string primitives

`String.prototype.split(' ')` splits at every occurrence of the separator,
keeping empty segments, and `''.split(' ')` is `['']`.
`String.prototype.startsWith(p)` is prefix testing. -/

/-- JS `split` on a list of characters: splits at every occurrence of `sep`,
keeping empty chunks; the empty list yields one empty chunk. -/
def splitChars (sep : Char) : List Char → List (List Char)
  | [] => [[]]
  | c :: cs =>
    let r := splitChars sep cs
    if c = sep then [] :: r
    else
      match r with
      | [] => [[c]]
      | h :: t => (c :: h) :: t

/-- JS `s.split(sep)` for a one-character separator. -/
def jsSplit (sep : Char) (s : String) : List String :=
  (splitChars sep s.toList).map fun cs => String.mk cs

/-- JS `s.startsWith(pre)`. -/
def jsStartsWith (s pre : String) : Bool :=
  pre.toList.isPrefixOf s.toList

/-! ### Response bodies

Responses are sent with `res.status(code).json(body)`.  A body is modelled as
the serialized flat JSON object: an ordered list of key/value fields (keys
whose value is `undefined` are dropped by `JSON.stringify` and so are absent
from the list).  Nested payloads that no claim inspects are kept opaque via
`JAtom.jpay`, labelled with what they contain. -/

/-- A JSON field value as it appears in the façade's response bodies. -/
inductive JAtom where
  /-- a boolean value -/
  | jb (v : Bool)
  /-- a string value -/
  | js (v : String)
  /-- an array of validation-error objects, represented by their `msg` fields -/
  | jarr (vs : List String)
  /-- an opaque nested payload, labelled with what it contains -/
  | jpay (tag : String)
deriving DecidableEq

/-- A serialized response body: ordered JSON object fields. -/
abbrev Body := List (String × JAtom)

/-- The failure envelope `{ success: false, error: msg }`. -/
def failBody (msg : String) : Body :=
  [("success", JAtom.jb false), ("error", JAtom.js msg)]

/-- `{ success: true, data: payload }` — the spec's success envelope. -/
def isSuccessEnvelope : Body → Bool
  | [("success", JAtom.jb true), ("data", _)] => true
  | _ => false

/-- `{ success: false, error: msg }` — the spec's failure envelope. -/
def isFailureEnvelope : Body → Bool
  | [("success", JAtom.jb false), ("error", JAtom.js _)] => true
  | _ => false

/-! ### Authenticator: `requireAuth` (auth.middleware.js lines 10-44) -/

/-- The authenticated user attached to `req.user`; only the `id` field is read
by the embedded code. -/
structure User where
  id : String
deriving DecidableEq

/-- Outcome of `await supabase.auth.getUser(token)` at the middleware's call
site: a user, an error-or-null-user response, or the awaited call throwing
(the spec's transient network/service failure). -/
inductive ProviderResult where
  | ok (u : User)
  | invalid
  | throws
deriving DecidableEq

/-- What a middleware does: respond with a status and body, or call `next()`
with the user attached to the request. -/
inductive AuthResult where
  | respond (status : Nat) (body : Body)
  | next (u : User)
deriving DecidableEq

/-- `const token = authHeader.split(' ')[1]` -/
def extractToken (authHeader : String) : String :=
  (jsSplit ' ' authHeader).getD 1 ""

/-- `requireAuth` from auth.middleware.js, with the provider call abstracted
as a function from the token to its outcome.  A missing header and a header
not starting with `"Bearer "` are both caught by
`!authHeader || !authHeader.startsWith('Bearer ')` (an empty-string header is
JS-falsy, but its `startsWith` test is false as well, so matching on
`Option String` is exact). -/
def requireAuth (provider : String → ProviderResult) (authHeader : Option String) :
    AuthResult :=
  match authHeader with
  | none => .respond 401 (failBody "No token, authorization denied")
  | some h =>
    if jsStartsWith h "Bearer " then
      match provider (extractToken h) with
      | .ok u => .next u
      | .invalid => .respond 401 (failBody "Token is not valid")
      | .throws => .respond 500 (failBody "Server error during authentication")
    else
      .respond 401 (failBody "No token, authorization denied")

/-! ### Authorizer: `requireRole` (auth.middleware.js lines 47-90) -/

/-- Outcome of the profile query
`supabase.from('profiles').select('user_type').eq('id', id).single()`:
a row with its `user_type`, an error-or-no-row response (`.single()` errors
when there is no matching row), or the awaited call throwing. -/
inductive StoreResult where
  | found (userType : String)
  | notFound
  | throws
deriving DecidableEq

/-- What `requireRole`'s inner middleware does: respond, or call `next()` with
`req.user.role = profile.user_type` attached. -/
inductive RoleResult where
  | respond (status : Nat) (body : Body)
  | next (u : User) (role : String)
deriving DecidableEq

/-- `requireRole(roles)` from auth.middleware.js, with the profile query
abstracted as a function from the user id to its outcome.  `reqUser` is
`req.user` (`none` when the authenticator did not populate it). -/
def requireRole (roles : List String) (store : String → StoreResult)
    (reqUser : Option User) : RoleResult :=
  match reqUser with
  | none => .respond 401 (failBody "Authentication required")
  | some u =>
    match store u.id with
    | .notFound => .respond 403 (failBody "Access denied. User profile not found.")
    | .found ut =>
      if roles.length != 0 && !(roles.contains ut) then
        .respond 403 (failBody "Access denied. Insufficient permissions.")
      else
        .next u ut
    | .throws => .respond 500 (failBody "Server error during authorization")

/-! ### Error shaping: `errorHandler` and `notFound`
(auth.middleware.js lines 93-126) -/

/-- A JS error as inspected by `errorHandler`: its `name` and `message`. -/
structure JsError where
  name : String
  message : String
deriving DecidableEq

/-- `errorHandler` from auth.middleware.js.  `dev` is
`process.env.NODE_ENV === 'development'`; when it is false the `message` key
holds `undefined` and is dropped from the serialized body. -/
def errorHandler (dev : Bool) (err : JsError) : Nat × Body :=
  if err.name = "JsonWebTokenError" then
    (401, failBody "Invalid token")
  else if err.name = "TokenExpiredError" then
    (401, failBody "Token expired")
  else
    (500,
      if dev then
        [("success", JAtom.jb false), ("error", JAtom.js "Something went wrong!"),
         ("message", JAtom.js err.message)]
      else
        failBody "Something went wrong!")

/-- `notFound` from auth.middleware.js: the response for unhandled routes. -/
def notFound : Nat × Body :=
  (404, failBody "Endpoint not found")

/-- The spec's §4.3 mapping table, as (status, body.error) pairs.  This
definition follows the SPEC's words, to be compared with the code-derived
definitions above. -/
def specTable : List (Nat × String) :=
  [(401, "No token, authorization denied"),
   (401, "Token is not valid"),
   (500, "Server error during authentication"),
   (403, "Access denied. User profile not found."),
   (403, "Access denied. Insufficient permissions."),
   (404, "Endpoint not found"),
   (500, "Something went wrong!")]

/-! ### Validated routes (auth.routes.js)

`express-validator` chains run before the `validate` middleware, which sends
`400 { success:false, errors: errors.array() }` and does not call `next()`
when any validator failed; only otherwise does the route handler (and with it
`authService` and the provider SDK) run.  A field that is absent from the
request body reaches a string validator as the empty string. -/

/-- The string a validator sees for a possibly-absent body field. -/
def fieldStr (o : Option String) : String := o.getD ""

/-- The `validate` middleware's 400 body:
`{ success:false, errors: errors.array() }` (note the key is `errors`, an
array of error objects, not `error`). -/
def validateBody (msgs : List String) : Body :=
  [("success", JAtom.jb false), ("errors", JAtom.jarr msgs)]

/-- Result of the `authService` call a route handler awaits, abstracted:
the call is a black box whose result either has `success: true` or carries an
error message. -/
inductive SvcResult where
  | ok
  | fail (error : String)
deriving DecidableEq

/-- Request body of `POST /api/auth/signup`. -/
structure SignupBody where
  email : Option String
  password : Option String
  firstName : Option String
  lastName : Option String
  userType : Option String
deriving DecidableEq

/-- Validation-error messages accumulated by the signup validator chain
(`isEmail`, `isLength({min:6})`, `not().isEmpty()` twice,
`isIn(['CUSTOMER','HUSTLER'])`).  The email predicate of the validator
library is kept abstract. -/
def signupErrors (isEmail : String → Bool) (b : SignupBody) : List String :=
  (if isEmail (fieldStr b.email) then [] else ["Please include a valid email"])
    ++ (if 6 ≤ (fieldStr b.password).length then []
        else ["Please enter a password with 6 or more characters"])
    ++ (if fieldStr b.firstName ≠ "" then [] else ["First name is required"])
    ++ (if fieldStr b.lastName ≠ "" then [] else ["Last name is required"])
    ++ (if (["CUSTOMER", "HUSTLER"] : List String).contains (fieldStr b.userType)
        then [] else ["User type is required"])

/-- JS falsiness of a possibly-absent string field (`undefined` or `''`). -/
def jsFalsy : Option String → Bool
  | none => true
  | some s => s = ""

/-- The signup route handler body (runs only after validation passed):
its own missing-fields check, then the `authService.signUp` call whose result
is the `svc` parameter. -/
def signupHandler (svc : SvcResult) (b : SignupBody) : Nat × Body :=
  if jsFalsy b.email || jsFalsy b.password || jsFalsy b.firstName
      || jsFalsy b.lastName || jsFalsy b.userType then
    (400, failBody "Missing required fields")
  else
    match svc with
    | .fail e => (400, failBody (if e = "" then "Failed to create user account" else e))
    | .ok =>
      (201, [("success", JAtom.jb true),
             ("message", JAtom.js "User registered successfully"),
             ("data", JAtom.jpay "user and session")])

/-- `POST /api/auth/signup`: validator chain, `validate`, then the handler. -/
def signupRoute (isEmail : String → Bool) (svc : SvcResult) (b : SignupBody) :
    Nat × Body :=
  let errs := signupErrors isEmail b
  if errs.isEmpty then signupHandler svc b else (400, validateBody errs)

/-- Request body of `POST /api/auth/signin`. -/
structure SigninBody where
  email : Option String
  password : Option String
deriving DecidableEq

/-- Validation-error messages of the signin chain (`isEmail`, `exists()`). -/
def signinErrors (isEmail : String → Bool) (b : SigninBody) : List String :=
  (if isEmail (fieldStr b.email) then [] else ["Please include a valid email"])
    ++ (match b.password with
        | none => ["Password is required"]
        | some _ => [])

/-- `POST /api/auth/signin`: on service failure the result object is sent
back as-is with status 400; on success a message plus data payload. -/
def signinRoute (isEmail : String → Bool) (svc : SvcResult) (b : SigninBody) :
    Nat × Body :=
  let errs := signinErrors isEmail b
  if errs.isEmpty then
    match svc with
    | .fail e => (400, failBody e)
    | .ok =>
      (200, [("success", JAtom.jb true),
             ("message", JAtom.js "User logged in successfully"),
             ("data", JAtom.jpay "user and session")])
  else (400, validateBody errs)

/-- Validation-error messages of the reset-password chain (`isEmail`). -/
def resetErrors (isEmail : String → Bool) (email : Option String) : List String :=
  if isEmail (fieldStr email) then [] else ["Please include a valid email"]

/-- `POST /api/auth/reset-password`. -/
def resetRoute (isEmail : String → Bool) (svc : SvcResult) (email : Option String) :
    Nat × Body :=
  let errs := resetErrors isEmail email
  if errs.isEmpty then
    match svc with
    | .fail e => (400, failBody e)
    | .ok =>
      (200, [("success", JAtom.jb true),
             ("message", JAtom.js "Password reset email sent successfully")])
  else (400, validateBody errs)

/-- The `POST /api/auth/signout` success body:
`{ success:true, message:'User logged out successfully' }` (no `data`). -/
def signoutSuccessBody : Body :=
  [("success", JAtom.jb true), ("message", JAtom.js "User logged out successfully")]

/-- The `GET /api/health` body:
`{ success:true, message:'Server is running', timestamp }`. -/
def healthBody (ts : String) : Body :=
  [("success", JAtom.jb true), ("message", JAtom.js "Server is running"),
   ("timestamp", JAtom.js ts)]

/-! ### `AuthService.signUp` (auth.service.js lines 5-50)

The method first awaits `supabase.auth.signUp` (which, when it succeeds,
creates the account at the provider) and then unconditionally awaits an
insert into `profiles` for the new user's id; either error is thrown and
caught, yielding `{ success:false, error: e.message || 'Failed to sign up
user' }`.  The method contains no call that deletes or rolls back the
provider-side account, so the returned pair's second component — whether an
account exists at the provider when `signUp` returns — stays true once the
first step succeeded. -/

/-- Outcome of `supabase.auth.signUp`. -/
inductive AuthSignUpOutcome where
  | ok (userId : String)
  | err (message : String)
deriving DecidableEq

/-- Outcome of the `profiles` insert for a given id.  The database trigger
`handle_new_user` (schema file) inserts the same primary key when the
provider account is created, making the service's own insert fail with a
duplicate-key error — one concrete way this outcome is `err`. -/
inductive InsertOutcome where
  | ok
  | err (message : String)
deriving DecidableEq

/-- The object `signUp` resolves with, restricted to the fields the claims
inspect. -/
structure ServiceResult where
  success : Bool
  error : Option String
deriving DecidableEq

/-- JS `a || b` on strings: the fallback is used when `a` is empty. -/
def jsOr (a b : String) : String := if a = "" then b else a

namespace AuthService

/-- `AuthService.signUp`: returns its result object paired with whether a
provider-side account exists when it returns. -/
def signUp (auth : AuthSignUpOutcome) (insert : String → InsertOutcome) :
    ServiceResult × Bool :=
  match auth with
  | .err m => (⟨false, some (jsOr m "Failed to sign up user")⟩, false)
  | .ok uid =>
    match insert uid with
    | .err m => (⟨false, some (jsOr m "Failed to sign up user")⟩, true)
    | .ok => (⟨true, none⟩, true)

end AuthService

/-- The serialized default branch of `errorHandler`'s 500 body: in
development mode the `message` field is present, otherwise it is `undefined`
and dropped. -/
def default500Body (dev : Bool) (m : String) : Body :=
  if dev then
    [("success", JAtom.jb false), ("error", JAtom.js "Something went wrong!"),
     ("message", JAtom.js m)]
  else failBody "Something went wrong!"

/-! ### Concrete collaborators used by witnesses and counterexamples -/

/-- A provider that reports every token invalid. -/
def pInvalid : String → ProviderResult := fun _ => .invalid

/-- A provider whose verification call throws (transient failure). -/
def pThrows : String → ProviderResult := fun _ => .throws

/-- A provider that accepts exactly the token `"ab cd"`. -/
def pAbCdOnly : String → ProviderResult :=
  fun t => if t = "ab cd" then .ok ⟨"u1"⟩ else .invalid

/-- A profile store resolving every id to role `HUSTLER`. -/
def storeHustler : String → StoreResult := fun _ => .found "HUSTLER"

/-- A profile store with no matching row for any id. -/
def storeMissing : String → StoreResult := fun _ => .notFound

/-- An email predicate accepting exactly `"a@b.co"`. -/
def emailDotCo : String → Bool := fun s => s = "a@b.co"

/-- A signup body whose password is shorter than six characters. -/
def signupShortPw : SignupBody :=
  ⟨some "a@b.co", some "abc", some "Jo", some "Do", some "CUSTOMER"⟩

/-- A signin body with a malformed email. -/
def signinBadEmail : SigninBody := ⟨some "nope", some "pw"⟩

/-- An insert outcome failing with the duplicate-key error raised when the
`handle_new_user` trigger has already created the profile row. -/
def insertDup : String → InsertOutcome :=
  fun _ => .err "duplicate key value violates unique constraint"

/-! ### Helper lemmas about the JS split -/

/-- A chunk with no separator is returned whole. -/
theorem splitChars_eq_single (sep : Char) (l : List Char) (h : sep ∉ l) :
    splitChars sep l = [l] := by
  induction l with
  | nil => rfl
  | cons c cs ih =>
    rw [List.mem_cons, not_or] at h
    have hc : ¬ c = sep := fun hcs => h.1 hcs.symm
    simp [splitChars, ih h.2, hc]

/-- Splitting a separator-free chunk followed by a separator peels off that
chunk. -/
theorem splitChars_sep_append (sep : Char) (l r : List Char) (h : sep ∉ l) :
    splitChars sep (l ++ sep :: r) = l :: splitChars sep r := by
  induction l with
  | nil => simp [splitChars]
  | cons c cs ih =>
    rw [List.mem_cons, not_or] at h
    have hc : ¬ c = sep := fun hcs => h.1 hcs.symm
    simp [splitChars, ih h.2, hc]

/-- Character list of a well-formed bearer header. -/
theorem toList_bearer (a : String) :
    ("Bearer " ++ a).toList = "Bearer".toList ++ ' ' :: a.toList := rfl

/-- Character list of a bearer header whose remainder contains a space. -/
theorem toList_bearer_two (a b : String) :
    ("Bearer " ++ a ++ " " ++ b).toList
      = "Bearer".toList ++ ' ' :: (a.toList ++ ' ' :: b.toList) := by
  show (("Bearer ".data ++ a.data) ++ [' ']) ++ b.data = _
  simp [List.append_assoc]

/-- For a space-free remainder, `split(' ')[1]` is the whole remainder. -/
theorem extractToken_bearer (a : String) (ha : ' ' ∉ a.toList) :
    extractToken ("Bearer " ++ a) = a := by
  unfold extractToken jsSplit
  rw [toList_bearer, splitChars_sep_append ' ' _ _ (by decide),
    splitChars_eq_single ' ' _ ha]
  rfl

/-- When the remainder contains a further space, `split(' ')[1]` stops at it. -/
theorem extractToken_bearer_two (a b : String) (ha : ' ' ∉ a.toList) :
    extractToken ("Bearer " ++ a ++ " " ++ b) = a := by
  unfold extractToken jsSplit
  rw [toList_bearer_two, splitChars_sep_append ' ' _ _ (by decide),
    splitChars_sep_append ' ' _ _ ha]
  rfl

/-- `"Bearer "` is a prefix of every header it opens. -/
theorem jsStartsWith_bearer (a : String) :
    jsStartsWith ("Bearer " ++ a) "Bearer " = true := by
  unfold jsStartsWith
  rw [List.isPrefixOf_iff_prefix]
  exact List.prefix_append _ _

/-- `includes` returning false is non-membership. -/
theorem contains_eq_false_of_notMem (roles : List String) (ut : String)
    (h : ut ∉ roles) : roles.contains ut = false := by
  simpa using h

/-! ### The claims -/

/-- Claim C1: for an authenticated principal whose id resolves to a role, a
non-empty allow-list not containing the resolved role yields the 403
InsufficientRole response with body error
"Access denied. Insufficient permissions.", while an empty allow-list lets
any resolved role through, attaching it to the principal for downstream
use. -/
theorem c1_authorize_role_filter (roles : List String)
    (store : String → StoreResult) (u : User) (ut : String)
    (hf : store u.id = .found ut) :
    (roles ≠ [] → ut ∉ roles →
      requireRole roles store (some u)
        = .respond 403 (failBody "Access denied. Insufficient permissions."))
    ∧ (roles = [] → requireRole roles store (some u) = .next u ut) := by
  constructor
  · intro hne hnm
    have h2 := contains_eq_false_of_notMem roles ut hnm
    cases roles with
    | nil => exact absurd rfl hne
    | cons a l =>
      rw [List.mem_cons, not_or] at hnm
      simp [requireRole, hf, h2, hnm.1, hnm.2]
  · intro he
    subst he
    simp [requireRole, hf]

/-- Witness for C1 at `roles = ["ADMIN"]`, resolved role `HUSTLER`, and at
`roles = []`. -/
theorem c1_authorize_role_filter_witness :
    requireRole ["ADMIN"] storeHustler (some ⟨"u1"⟩)
      = .respond 403 (failBody "Access denied. Insufficient permissions.")
    ∧ requireRole [] storeHustler (some ⟨"u1"⟩) = .next ⟨"u1"⟩ "HUSTLER" :=
  ⟨(c1_authorize_role_filter ["ADMIN"] storeHustler ⟨"u1"⟩ "HUSTLER" rfl).1
      (by decide) (by decide),
   (c1_authorize_role_filter [] storeHustler ⟨"u1"⟩ "HUSTLER" rfl).2 rfl⟩

/-- Claim C2: a request whose Authorization header is absent or does not
start with "Bearer " gets the 401 MissingCredential response, and the
provider's verification capability is never consulted (the outcome does not
depend on the provider at all). -/
theorem c2_authenticate_missing_credential (ah : Option String)
    (p q : String → ProviderResult)
    (h : ah = none ∨ ∃ s, ah = some s ∧ jsStartsWith s "Bearer " = false) :
    requireAuth p ah = .respond 401 (failBody "No token, authorization denied")
    ∧ requireAuth p ah = requireAuth q ah := by
  rcases h with h | ⟨s, rfl, hs⟩
  · subst h; exact ⟨rfl, rfl⟩
  · constructor <;> simp [requireAuth, hs]

/-- Witness for C2 at the header value "Token abc" (wrong scheme). -/
theorem c2_authenticate_missing_credential_witness :
    requireAuth pInvalid (some "Token abc")
      = .respond 401 (failBody "No token, authorization denied")
    ∧ requireAuth pInvalid (some "Token abc")
        = requireAuth pThrows (some "Token abc") :=
  c2_authenticate_missing_credential (some "Token abc") pInvalid pThrows
    (Or.inr ⟨"Token abc", rfl, by decide⟩)

/-- Claim C3: an authenticated principal whose id has no matching profile row
gets the 403 ProfileNotFound response, whatever the allow-list (including the
empty one). -/
theorem c3_authorize_profile_missing (roles : List String)
    (store : String → StoreResult) (u : User)
    (h : store u.id = .notFound) :
    requireRole roles store (some u)
      = .respond 403 (failBody "Access denied. User profile not found.") := by
  simp [requireRole, h]

/-- Witness for C3 at `roles = []` and a store with no rows. -/
theorem c3_authorize_profile_missing_witness :
    requireRole [] storeMissing (some ⟨"u1"⟩)
      = .respond 403 (failBody "Access denied. User profile not found.") :=
  c3_authorize_profile_missing [] storeMissing ⟨"u1"⟩ rfl

/-- Claim C4: when a Bearer token is presented and the provider's
verification call fails transiently (throws) rather than reporting the token
invalid, the response is the 500 ProviderUnavailable mapping, never the 401
InvalidCredential mapping. -/
theorem c4_authenticate_provider_unavailable (h : String)
    (p : String → ProviderResult)
    (hs : jsStartsWith h "Bearer " = true)
    (hp : p (extractToken h) = .throws) :
    requireAuth p (some h)
      = .respond 500 (failBody "Server error during authentication")
    ∧ requireAuth p (some h)
        ≠ .respond 401 (failBody "Token is not valid") := by
  have he : requireAuth p (some h)
      = .respond 500 (failBody "Server error during authentication") := by
    simp [requireAuth, hs, hp]
  refine ⟨he, ?_⟩
  rw [he]
  decide

/-- Witness for C4 at the header "Bearer abc" and a throwing provider. -/
theorem c4_authenticate_provider_unavailable_witness :
    requireAuth pThrows (some "Bearer abc")
      = .respond 500 (failBody "Server error during authentication")
    ∧ requireAuth pThrows (some "Bearer abc")
        ≠ .respond 401 (failBody "Token is not valid") :=
  c4_authenticate_provider_unavailable "Bearer abc" pThrows (by decide) rfl

/-- Claim C10: when `requireRole`'s inner middleware runs without a populated
`req.user`, it responds 401 with body error "Authentication required",
without consulting the profile store, and the (401, "Authentication
required") pair appears nowhere in the spec's mapping table. -/
theorem c10_authorize_unauthenticated :
    (∀ (roles : List String) (s1 s2 : String → StoreResult),
      requireRole roles s1 none
        = .respond 401 (failBody "Authentication required")
      ∧ requireRole roles s1 none = requireRole roles s2 none)
    ∧ ((401 : Nat), "Authentication required") ∉ specTable :=
  ⟨fun _ _ _ => ⟨rfl, rfl⟩, by decide⟩

/-- Witness for C10 at `roles = ["ADMIN"]` and two distinct stores. -/
theorem c10_authorize_unauthenticated_witness :
    requireRole ["ADMIN"] storeMissing none
      = .respond 401 (failBody "Authentication required")
    ∧ requireRole ["ADMIN"] storeMissing none
        = requireRole ["ADMIN"] storeHustler none :=
  c10_authorize_unauthenticated.1 ["ADMIN"] storeMissing storeHustler

/-- A bearer header's prefix test succeeds whatever follows the scheme. -/
theorem isPrefixOf_bearer_gen (r : List Char) :
    ("Bearer ".toList).isPrefixOf ("Bearer".toList ++ ' ' :: r) = true := by
  rw [List.isPrefixOf_iff_prefix]
  exact List.prefix_append _ _

/-- `startsWith` holds for a bearer header whose token carries a space. -/
theorem jsStartsWith_bearer_two (a b : String) :
    jsStartsWith ("Bearer " ++ a ++ " " ++ b) "Bearer " = true := by
  unfold jsStartsWith
  rw [toList_bearer_two]
  exact isPrefixOf_bearer_gen _

/-- Claim C5 counterexample: an uncaught exception named `JsonWebTokenError`
is mapped by `errorHandler` to 401 "Invalid token" — a status/error pair
outside the spec's table — instead of 500 "Something went wrong!". -/
theorem c5_error_mapping_counterexample :
    errorHandler false ⟨"JsonWebTokenError", "jwt malformed"⟩
      = (401, failBody "Invalid token")
    ∧ ((401 : Nat), "Invalid token") ∉ specTable
    ∧ errorHandler false ⟨"JsonWebTokenError", "jwt malformed"⟩
        ≠ (500, failBody "Something went wrong!") := by
  decide

/-- Claim C5 (amended): the five AuthError variants, the unhandled route and
generic uncaught exceptions map exactly as the spec's table; but exceptions
named `JsonWebTokenError` and `TokenExpiredError` map to 401 "Invalid token"
and 401 "Token expired" — two pairs outside the table — and in development
builds the generic 500 body carries an extra `message` field.  Every output
of `errorHandler` is one of these three shapes. -/
theorem c5_error_mapping_amended :
    (∀ p, requireAuth p none
      = .respond 401 (failBody "No token, authorization denied"))
    ∧ (∀ h p, jsStartsWith h "Bearer " = true → p (extractToken h) = .invalid →
        requireAuth p (some h) = .respond 401 (failBody "Token is not valid"))
    ∧ (∀ h p, jsStartsWith h "Bearer " = true → p (extractToken h) = .throws →
        requireAuth p (some h)
          = .respond 500 (failBody "Server error during authentication"))
    ∧ (∀ (roles : List String) (store : String → StoreResult) (u : User),
        store u.id = .notFound →
        requireRole roles store (some u)
          = .respond 403 (failBody "Access denied. User profile not found."))
    ∧ (∀ (roles : List String) (store : String → StoreResult) (u : User)
        (ut : String), store u.id = .found ut → roles ≠ [] → ut ∉ roles →
        requireRole roles store (some u)
          = .respond 403 (failBody "Access denied. Insufficient permissions."))
    ∧ notFound = (404, failBody "Endpoint not found")
    ∧ (∀ e : JsError, e.name ≠ "JsonWebTokenError" →
        e.name ≠ "TokenExpiredError" →
        ∀ dev, errorHandler dev e = (500, default500Body dev e.message))
    ∧ (∀ e : JsError, e.name = "JsonWebTokenError" →
        ∀ dev, errorHandler dev e = (401, failBody "Invalid token"))
    ∧ (∀ e : JsError, e.name = "TokenExpiredError" →
        ∀ dev, errorHandler dev e = (401, failBody "Token expired"))
    ∧ (∀ (dev : Bool) (e : JsError),
        errorHandler dev e = (401, failBody "Invalid token")
        ∨ errorHandler dev e = (401, failBody "Token expired")
        ∨ errorHandler dev e = (500, default500Body dev e.message))
    ∧ (((401 : Nat), "Invalid token") ∉ specTable
        ∧ ((401 : Nat), "Token expired") ∉ specTable) := by
  refine ⟨fun p => rfl, ?_, ?_, ?_, ?_, rfl, ?_, ?_, ?_, ?_, by decide⟩
  · intro h p hs hp
    simp [requireAuth, hs, hp]
  · intro h p hs hp
    simp [requireAuth, hs, hp]
  · intro roles store u hn
    simp [requireRole, hn]
  · intro roles store u ut hf hne hnm
    have h2 := contains_eq_false_of_notMem roles ut hnm
    cases roles with
    | nil => exact absurd rfl hne
    | cons a l =>
      rw [List.mem_cons, not_or] at hnm
      simp [requireRole, hf, h2, hnm.1, hnm.2]
  · intro e h1 h2 dev
    simp [errorHandler, h1, h2, default500Body]
  · intro e he dev
    simp [errorHandler, he]
  · intro e he dev
    simp [errorHandler, he]
  · intro dev e
    by_cases h1 : e.name = "JsonWebTokenError"
    · exact Or.inl (by simp [errorHandler, h1])
    · by_cases h2 : e.name = "TokenExpiredError"
      · exact Or.inr (Or.inl (by simp [errorHandler, h1, h2]))
      · exact Or.inr (Or.inr (by simp [errorHandler, h1, h2, default500Body]))

/-- Witness for the amended C5 at a wrong token, a missing profile and a
generic exception. -/
theorem c5_error_mapping_amended_witness :
    requireAuth pInvalid (some "Bearer abc")
      = .respond 401 (failBody "Token is not valid")
    ∧ requireRole ["ADMIN"] storeMissing (some ⟨"u1"⟩)
        = .respond 403 (failBody "Access denied. User profile not found.")
    ∧ errorHandler false ⟨"RangeError", "x"⟩ = (500, default500Body false "x") :=
  ⟨c5_error_mapping_amended.2.1 "Bearer abc" pInvalid (by decide) rfl,
   c5_error_mapping_amended.2.2.2.1 ["ADMIN"] storeMissing ⟨"u1"⟩ rfl,
   c5_error_mapping_amended.2.2.2.2.2.2.1 ⟨"RangeError", "x"⟩ (by decide)
     (by decide) false⟩

/-- Claim C6 counterexample: the signout success body
`{ success:true, message:'User logged out successfully' }` matches neither
the success envelope `{ success:true, data }` nor the failure envelope
`{ success:false, error }`. -/
theorem c6_envelope_counterexample :
    isSuccessEnvelope signoutSuccessBody = false
    ∧ isFailureEnvelope signoutSuccessBody = false := by
  decide

/-- Claim C6 (amended): every failure response of the auth middleware, the
404 handler and the error handler (in production mode) is the failure
envelope, but the envelope is not uniform across the façade: validation
failures use an `errors` array instead of `error`, and the signout and
health success bodies carry `message` (and `timestamp`) fields with no
`data`. -/
theorem c6_envelope_amended :
    (∀ msg, isFailureEnvelope (failBody msg) = true)
    ∧ (∀ (p : String → ProviderResult) (ah : Option String) (st : Nat)
        (b : Body), requireAuth p ah = .respond st b →
        isFailureEnvelope b = true)
    ∧ (∀ (roles : List String) (store : String → StoreResult)
        (ru : Option User) (st : Nat) (b : Body),
        requireRole roles store ru = .respond st b →
        isFailureEnvelope b = true)
    ∧ (∀ e, isFailureEnvelope (errorHandler false e).2 = true)
    ∧ isFailureEnvelope notFound.2 = true
    ∧ (∀ msgs, isFailureEnvelope (validateBody msgs) = false
        ∧ (validateBody msgs).map Prod.fst = ["success", "errors"])
    ∧ isSuccessEnvelope signoutSuccessBody = false
    ∧ signoutSuccessBody.map Prod.fst = ["success", "message"]
    ∧ (∀ ts, isSuccessEnvelope (healthBody ts) = false
        ∧ (healthBody ts).map Prod.fst = ["success", "message", "timestamp"]) := by
  refine ⟨fun msg => rfl, ?_, ?_, ?_, rfl, fun msgs => ⟨rfl, rfl⟩, by decide,
    by decide, fun ts => ⟨rfl, rfl⟩⟩
  · intro p ah st b h
    cases ah with
    | none =>
      simp [requireAuth] at h
      rw [← h.2]
      rfl
    | some s =>
      by_cases hs : jsStartsWith s "Bearer " = true
      · cases hpr : p (extractToken s) with
        | ok u => simp [requireAuth, hs, hpr] at h
        | invalid =>
          simp [requireAuth, hs, hpr] at h
          rw [← h.2]
          rfl
        | throws =>
          simp [requireAuth, hs, hpr] at h
          rw [← h.2]
          rfl
      · rw [Bool.not_eq_true] at hs
        simp [requireAuth, hs] at h
        rw [← h.2]
        rfl
  · intro roles store ru st b h
    cases ru with
    | none =>
      simp [requireRole] at h
      rw [← h.2]
      rfl
    | some u =>
      cases hst : store u.id with
      | found ut =>
        simp only [requireRole, hst] at h
        split at h
        · rw [RoleResult.respond.injEq] at h
          rw [← h.2]
          rfl
        · simp at h
      | notFound =>
        simp [requireRole, hst] at h
        rw [← h.2]
        rfl
      | throws =>
        simp [requireRole, hst] at h
        rw [← h.2]
        rfl
  · intro e
    by_cases h1 : e.name = "JsonWebTokenError"
    · simp [errorHandler, h1]
      rfl
    · by_cases h2 : e.name = "TokenExpiredError"
      · simp [errorHandler, h1, h2]
        rfl
      · simp [errorHandler, h1, h2]
        rfl

/-- Witness for the amended C6 at the missing-header response of the
authenticator. -/
theorem c6_envelope_amended_witness :
    isFailureEnvelope (failBody "No token, authorization denied") = true :=
  c6_envelope_amended.2.1 pInvalid none 401
    (failBody "No token, authorization denied") rfl

/-- Claim C7 counterexample: for the header "Bearer ab cd" the token passed
on is "ab", not the full substring "ab cd" after the scheme prefix: a
provider accepting exactly "ab cd" still sees an invalid token. -/
theorem c7_token_truncation_counterexample :
    extractToken "Bearer ab cd" = "ab"
    ∧ ("ab" : String) ≠ "ab cd"
    ∧ requireAuth pAbCdOnly (some "Bearer ab cd")
        = .respond 401 (failBody "Token is not valid") := by
  decide

/-- Claim C7 (amended): the token passed to the provider is the segment of
the header between the first and second space (`split(' ')[1]`); it equals
the full remainder after "Bearer " exactly when that remainder contains no
space, and anything after a further space is ignored. -/
theorem c7_token_extraction_amended (a b : String) (p : String → ProviderResult)
    (ha : ' ' ∉ a.toList) :
    extractToken ("Bearer " ++ a) = a
    ∧ extractToken ("Bearer " ++ a ++ " " ++ b) = a
    ∧ requireAuth p (some ("Bearer " ++ a ++ " " ++ b))
        = requireAuth p (some ("Bearer " ++ a)) := by
  refine ⟨extractToken_bearer a ha, extractToken_bearer_two a b ha, ?_⟩
  simp [requireAuth, jsStartsWith_bearer, jsStartsWith_bearer_two,
    extractToken_bearer a ha, extractToken_bearer_two a b ha]

/-- Witness for the amended C7 at the space-free token "ab" and trailing
segment "cd". -/
theorem c7_token_extraction_amended_witness :
    extractToken ("Bearer " ++ "ab") = "ab"
    ∧ extractToken ("Bearer " ++ "ab" ++ " " ++ "cd") = "ab"
    ∧ requireAuth pInvalid (some ("Bearer " ++ "ab" ++ " " ++ "cd"))
        = requireAuth pInvalid (some ("Bearer " ++ "ab")) :=
  c7_token_extraction_amended "ab" "cd" pInvalid (by decide)

/-- Claim C8: when the body of a validated endpoint (signup, signin,
reset-password) fails field validation, the request is answered with the 400
validation response before any service/provider call: the outcome does not
depend on the service result at all. -/
theorem c8_validation_before_provider (isEmail : String → Bool)
    (b : SignupBody) (bi : SigninBody) (em : Option String) (s1 s2 : SvcResult) :
    (signupErrors isEmail b ≠ [] →
      signupRoute isEmail s1 b = (400, validateBody (signupErrors isEmail b))
      ∧ signupRoute isEmail s1 b = signupRoute isEmail s2 b)
    ∧ (signinErrors isEmail bi ≠ [] →
      signinRoute isEmail s1 bi = (400, validateBody (signinErrors isEmail bi))
      ∧ signinRoute isEmail s1 bi = signinRoute isEmail s2 bi)
    ∧ (resetErrors isEmail em ≠ [] →
      resetRoute isEmail s1 em = (400, validateBody (resetErrors isEmail em))
      ∧ resetRoute isEmail s1 em = resetRoute isEmail s2 em) := by
  refine ⟨fun h => ?_, fun h => ?_, fun h => ?_⟩
  · cases he : signupErrors isEmail b with
    | nil => exact absurd he h
    | cons x xs => constructor <;> simp [signupRoute, he]
  · cases he : signinErrors isEmail bi with
    | nil => exact absurd he h
    | cons x xs => constructor <;> simp [signinRoute, he]
  · cases he : resetErrors isEmail em with
    | nil => exact absurd he h
    | cons x xs => constructor <;> simp [resetRoute, he]

/-- Witness for C8: a short password (signup) and a malformed email (signin,
reset-password) are rejected with 400 whatever the service would return. -/
theorem c8_validation_before_provider_witness :
    signupRoute emailDotCo .ok signupShortPw
      = (400, validateBody (signupErrors emailDotCo signupShortPw))
    ∧ signupRoute emailDotCo .ok signupShortPw
        = signupRoute emailDotCo (.fail "x") signupShortPw
    ∧ signinRoute emailDotCo .ok signinBadEmail
        = (400, validateBody (signinErrors emailDotCo signinBadEmail))
    ∧ signinRoute emailDotCo .ok signinBadEmail
        = signinRoute emailDotCo (.fail "x") signinBadEmail
    ∧ resetRoute emailDotCo .ok (some "nope")
        = (400, validateBody (resetErrors emailDotCo (some "nope")))
    ∧ resetRoute emailDotCo .ok (some "nope")
        = resetRoute emailDotCo (.fail "x") (some "nope") := by
  have h := c8_validation_before_provider emailDotCo signupShortPw
    signinBadEmail (some "nope") .ok (.fail "x")
  have h1 := h.1 (by decide)
  have h2 := h.2.1 (by decide)
  have h3 := h.2.2 (by decide)
  exact ⟨h1.1, h1.2, h2.1, h2.2, h3.1, h3.2⟩

/-- Claim C9: `AuthService.signUp` is not atomic on error — once the
provider-side account creation succeeded, a failing profile insert (for
example the duplicate-key error caused by the `handle_new_user` trigger
having already inserted the row) makes it return
`{ success:false, error: <message> }` while the provider-side account
remains in existence. -/
theorem c9_signup_not_atomic (uid m : String) (ins : String → InsertOutcome)
    (hi : ins uid = .err m) :
    (AuthService.signUp (.ok uid) ins).1
      = ⟨false, some (jsOr m "Failed to sign up user")⟩
    ∧ (AuthService.signUp (.ok uid) ins).2 = true := by
  constructor <;> simp [AuthService.signUp, hi]

/-- Witness for C9 at a duplicate-key insert failure. -/
theorem c9_signup_not_atomic_witness :
    (AuthService.signUp (.ok "u1") insertDup).1
      = ⟨false, some (jsOr "duplicate key value violates unique constraint"
          "Failed to sign up user")⟩
    ∧ (AuthService.signUp (.ok "u1") insertDup).2 = true :=
  c9_signup_not_atomic "u1" "duplicate key value violates unique constraint"
    insertDup rfl

end Hustlrs
